import Mathlib

/- Verification of the job-orchestration backend in backend/main.py.

The development shallowly embeds the Python source: JSON values become the
inductive type JValue; Python string operations (strip, split, lower,
startswith, substring test) are re-implemented over character lists with the
same semantics; the external HTTP world (the script collaborator, the video
submit endpoint, the video poll endpoint) is a parameter of each function,
exactly at the call sites where the source performs a request; `json.loads`
is likewise a parameter (it is an external library routine), so every theorem
holds for any decoder, and concrete counterexamples instantiate it with a
finite table that agrees with real JSON decoding on the strings involved.
Python exceptions are modelled with Except; Python truthiness is the function
`truthy` below. -/

set_option maxRecDepth 4096

/-- A JSON value as produced by json.loads. Numeric literals are modelled as
integers (no claim involves fractional numbers). An object is its field list
in insertion order with distinct keys, as json.loads produces. -/
inductive JValue where
  | null
  | bool (b : Bool)
  | num (n : Int)
  | str (s : String)
  | arr (xs : List JValue)
  | obj (fields : List (String × JValue))

/-- Python truthiness of a JSON value: None, False, 0, empty string, empty
list and empty dict are falsy, everything else is truthy. -/
def truthy : JValue → Bool
  | JValue.null => false
  | JValue.bool b => b
  | JValue.num n => n != 0
  | JValue.str s => !s.toList.isEmpty
  | JValue.arr xs => !xs.isEmpty
  | JValue.obj fs => !fs.isEmpty

/-- dict.get on an object; yields none when the key is missing. Callers guard
the non-dict case separately (in Python .get on a non-dict raises). -/
def jget : JValue → String → Option JValue
  | JValue.obj fs, k => (fs.find? (fun p => p.1 == k)).map (fun p => p.2)
  | _, _ => none

/-- True exactly on dict values. -/
def isObj : JValue → Bool
  | JValue.obj _ => true
  | _ => false

/-- The characters Python's str.strip removes. -/
def isPySpace (c : Char) : Bool :=
  c == ' ' || c == '\t' || c == '\n' || c == '\r' || c == '\x0b' || c == '\x0c'

/-- Drop leading Python whitespace from a character list. -/
def dropLead : List Char → List Char
  | [] => []
  | c :: cs => if isPySpace c then dropLead cs else c :: cs

/-- Python str.strip(): remove whitespace from both ends. -/
def pyStrip (s : String) : String :=
  String.mk ((dropLead ((dropLead s.toList).reverse)).reverse)

/-- Helper for pySplitNL: accumulate the current line (reversed). -/
def splitLinesAux : List Char → List Char → List String
  | [], cur => [String.mk cur.reverse]
  | c :: cs, cur =>
    if c == '\n' then String.mk cur.reverse :: splitLinesAux cs []
    else splitLinesAux cs (c :: cur)

/-- Python s.split(chr(10)): split on newline, keeping empty pieces. -/
def pySplitNL (s : String) : List String := splitLinesAux s.toList []

/-- Is `w` a leading segment of `s` (character lists)? -/
def listLeads : List Char → List Char → Bool
  | [], _ => true
  | _ :: _, [] => false
  | c :: cs, d :: ds => c == d && listLeads cs ds

/-- Does `needle` occur as a contiguous segment of `hay`? -/
def listHasSub (needle : List Char) : List Char → Bool
  | [] => needle.isEmpty
  | c :: cs => listLeads needle (c :: cs) || listHasSub needle cs

/-- Python str.lower (ASCII behaviour, which is all the source relies on). -/
def pyLower (s : String) : String := String.mk (s.toList.map Char.toLower)

/-- Drop the first n characters of a string. -/
def strDrop (s : String) (n : Nat) : String := String.mk (s.toList.drop n)

/-- Hexadecimal digit character for n < 16, as in Python's \xhh escapes. -/
def hexDigit (n : Nat) : Char :=
  if n < 10 then Char.ofNat (48 + n) else Char.ofNat (87 + n)

/-- Escape one character the way Python's repr of a string does, given the
chosen quote character. -/
def escChar (quote : Char) (c : Char) : List Char :=
  if c == '\\' then ['\\', '\\']
  else if c == quote then ['\\', quote]
  else if c == '\n' then ['\\', 'n']
  else if c == '\r' then ['\\', 'r']
  else if c == '\t' then ['\\', 't']
  else if c.toNat < 32 || c.toNat == 127 then
    ['\\', 'x', hexDigit (c.toNat / 16), hexDigit (c.toNat % 16)]
  else [c]

/-- Python repr of a string: single quotes unless the string contains a
single quote and no double quote. -/
def strRepr (s : String) : String :=
  let q : Char :=
    if s.toList.contains '\x27' && !(s.toList.contains '"') then '"' else '\x27'
  String.mk (q :: (s.toList.foldr (fun c acc => escChar q c ++ acc) [q]))

mutual

/-- Python repr of a JSON value (what str() applies to elements of containers). -/
def pyRepr : JValue → String
  | JValue.null => "None"
  | JValue.bool b => if b then "True" else "False"
  | JValue.num n => toString n
  | JValue.str s => strRepr s
  | JValue.arr xs => "[" ++ pyReprList xs ++ "]"
  | JValue.obj fs => "\x7b" ++ pyReprFields fs ++ "\x7d"

/-- Comma-joined reprs of list elements. -/
def pyReprList : List JValue → String
  | [] => ""
  | [x] => pyRepr x
  | x :: y :: rest => pyRepr x ++ ", " ++ pyReprList (y :: rest)

/-- Comma-joined reprs of dict items. -/
def pyReprFields : List (String × JValue) → String
  | [] => ""
  | [p] => strRepr p.1 ++ ": " ++ pyRepr p.2
  | p :: q :: rest => strRepr p.1 ++ ": " ++ pyRepr p.2 ++ ", " ++ pyReprFields (q :: rest)

end

/-- Python str() of a JSON value: the string itself for strings, repr-style
rendering otherwise. -/
def pyStr : JValue → String
  | JValue.str s => s
  | v => pyRepr v

/- ===== ResponseFrameParser: extract_id_from_sse (main.py lines 69-89) ===== -/

/-- The second disjunct of the id lookup in extract_id_from_sse:
`data.get("data") and data.get("data").get("id")`, followed by the
truthiness test `if job_id:` and the str() conversion. A raising access
(.get on a truthy non-dict) is caught by the `except: continue` of the
caller and therefore also yields none. -/
def idViaDataField (data : JValue) : Option String :=
  match jget data ("data") with
  | none => none
  | some b =>
    if truthy b then
      match b with
      | JValue.obj fs =>
        match jget (JValue.obj fs) ("id") with
        | some u => if truthy u then some (pyStr u) else none
        | none => none
      | _ => none
    else none

/-- The body of the per-line try block of extract_id_from_sse once a line has
been decoded: `job_id = data.get("id") or (data.get("data") and
data.get("data").get("id")); if job_id: return str(job_id)`. A non-dict
payload raises on .get and is skipped. -/
def idFromPayload : JValue → Option String
  | JValue.obj fs =>
    (match jget (JValue.obj fs) ("id") with
     | some v => if truthy v then some (pyStr v) else idViaDataField (JValue.obj fs)
     | none => idViaDataField (JValue.obj fs))
  | _ => none

/-- The frame content of one line, shared by both scanners: strip the line
and strip a leading literal "data:" marker (the source uses
line.replace("data:", "", 1) under a startswith guard, which is exactly
prefix removal, followed by another strip). -/
def frameContent (line : String) : String :=
  let content0 := pyStrip line
  if listLeads ("data:".toList) content0.toList then pyStrip (strDrop content0 5)
  else content0

/-- One loop iteration of extract_id_from_sse on one line: strip the line,
skip it when blank, take the frame content, decode, and extract the id.
none means the loop continues. -/
def lineId (loads : String → Option JValue) (line : String) : Option String :=
  if (pyStrip line).toList.isEmpty then none
  else
    match loads (frameContent line) with
    | none => none
    | some d => idFromPayload d

/-- The loop of extract_id_from_sse over the split lines: first line whose
processing yields an id wins. -/
def extract_go (loads : String → Option JValue) : List String → Option String
  | [] => none
  | line :: rest =>
    match lineId loads line with
    | some j => some j
    | none => extract_go loads rest

/-- extract_id_from_sse (main.py lines 69-89): split the body on newlines and
scan the lines front to back for the first decodable frame carrying an id. -/
def extract_id_from_sse (loads : String → Option JValue) (raw_text : String) : Option String :=
  extract_go loads (pySplitNL raw_text)

/- ===== poll_video_url (main.py lines 91-139) ===== -/

/-- Nested-payload normalization inside the poll loop (line 115):
`res_obj = data.get("data") if isinstance(data.get("data"), dict) else data`. -/
def normalizePayload (data : JValue) : JValue :=
  match jget data ("data") with
  | some (JValue.obj fs) => JValue.obj fs
  | _ => data

/-- What one parsed line makes the poll loop do next. -/
inductive LineStep where
  | ret (url : JValue)
  | fail
  | brk
  | next

/-- The status strings the poll loop treats as in-progress (line 127). -/
def progressStatuses : List String := ["waiting", "processing", "pending", "running", "none"]

/-- `str(res_obj.get("status", "")).lower()` (main.py line 126). -/
def statusLower (res_obj : JValue) : String :=
  match jget res_obj ("status") with
  | some v => pyLower (pyStr v)
  | none => ""

/-- The status check at the end of the poll loop body (lines 126-133): an
in-progress status breaks out of the line scan, failed/error returns None
from the whole poll, anything else (including the "" default) falls through
to the next line. -/
def statusStep (res_obj : JValue) : LineStep :=
  let status := statusLower res_obj
  if progressStatuses.contains status then LineStep.brk
  else if status == "failed" || status == "error" then LineStep.fail
  else LineStep.next

/-- The results check of the poll loop body (lines 116-123) applied after
decoding, with Python truthiness and exception semantics: a truthy non-list
`results`, or a non-empty list whose head is not a dict, raises inside the
try and the except clause moves to the next line; a falsy `results` falls
through to the status check; a non-empty list whose head carries a truthy
url returns that url, and one without a truthy url falls through to the
status check (`if url:` fails). -/
def resultsStep (res_obj : JValue) : LineStep :=
  match jget res_obj ("results") with
  | some (JValue.arr (x :: _)) =>
    (match x with
     | JValue.obj fs =>
       (match jget (JValue.obj fs) ("url") with
        | some u => if truthy u then LineStep.ret u else statusStep res_obj
        | none => statusStep res_obj)
     | _ => LineStep.next)
  | some (JValue.arr []) => statusStep res_obj
  | some (JValue.str s) => if s.toList.isEmpty then statusStep res_obj else LineStep.next
  | some (JValue.obj fs) => if fs.isEmpty then statusStep res_obj else LineStep.next
  | some (JValue.num n) => if n == 0 then statusStep res_obj else LineStep.next
  | some (JValue.bool b) => if b then LineStep.next else statusStep res_obj
  | some JValue.null => statusStep res_obj
  | none => statusStep res_obj

/-- One line of the poll response body (lines 110-135): strip, drop a
"data:" frame marker, decode; an undecodable line or a non-dict payload
(whose .get raises) is skipped by the except clause. -/
def pollLine (loads : String → Option JValue) (line : String) : LineStep :=
  match loads (frameContent line) with
  | none => LineStep.next
  | some data =>
    match data with
    | JValue.obj fs => resultsStep (normalizePayload (JValue.obj fs))
    | _ => LineStep.next

/-- What one whole poll attempt makes the outer loop do. -/
inductive AttemptOutcome where
  | done (url : JValue)
  | failed
  | inProgress

/-- Scan the lines of one poll response body in order (lines 109-135). -/
def scanLines (loads : String → Option JValue) : List String → AttemptOutcome
  | [] => AttemptOutcome.inProgress
  | line :: rest =>
    match pollLine loads line with
    | LineStep.ret u => AttemptOutcome.done u
    | LineStep.fail => AttemptOutcome.failed
    | LineStep.brk => AttemptOutcome.inProgress
    | LineStep.next => scanLines loads rest

/-- One poll attempt (lines 98-138). The environment answers each attempt
with none (the request raised; the except clause continues) or with an HTTP
status code and a body. Only a 200 body is inspected; any other code falls
through to the next attempt. -/
def pollAttempt (loads : String → Option JValue) (resp : Option (Nat × String)) : AttemptOutcome :=
  match resp with
  | none => AttemptOutcome.inProgress
  | some (code, body) =>
    if code == 200 then scanLines loads (pySplitNL (pyStrip body))
    else AttemptOutcome.inProgress

/-- The bounded poll loop (line 96: `for i in range(120)`), counting the
attempts consumed: first component is the returned url (None when the loop
fails early or exhausts its budget), second the number of attempts made.
`i` is the index of the next attempt and the second argument the remaining
fuel. -/
def poll_go (loads : String → Option JValue) (resp : Nat → Option (Nat × String)) :
    Nat → Nat → Option JValue × Nat
  | i, 0 => (none, i)
  | i, fuel + 1 =>
    match pollAttempt loads (resp i) with
    | AttemptOutcome.done u => (some u, i + 1)
    | AttemptOutcome.failed => (none, i + 1)
    | AttemptOutcome.inProgress => poll_go loads resp (i + 1) fuel

/-- poll_video_url (main.py lines 91-139): up to 120 attempts, returning the
first url found, None on an explicit failed/error status or on exhaustion. -/
def poll_video_url (loads : String → Option JValue) (resp : Nat → Option (Nat × String)) :
    Option JValue :=
  (poll_go loads resp 0 120).1

/-- Table-based decoder used for concrete instances: agrees with real JSON
decoding on every string it maps and fails on everything else. -/
def tblLoads (tbl : List (String × JValue)) (s : String) : Option JValue :=
  (tbl.find? (fun p => p.1 == s)).map (fun p => p.2)

/- ===== Prompt assembly and orchestrator (main.py lines 45-67, 141-257) ===== -/

/-- The request model (main.py lines 45-48); pydantic fills the defaults, so
by the time background_generate_course runs all three fields are strings. -/
structure VideoRequest where
  topic : String
  character : String
  style : String

/-- Does a word occur case-insensitively in the prompt? re.sub with
re.IGNORECASE matches exactly the case-insensitive occurrences of these
plain-letter patterns. -/
def matchAtCI : List Char → List Char → Option (List Char)
  | [], s => some s
  | _ :: _, [] => none
  | c :: cs, d :: ds => if c.toLower == d.toLower then matchAtCI cs ds else none

/-- Remove every (left-to-right, non-overlapping) case-insensitive occurrence
of a non-empty word; fuel is the length of the text. -/
def removeAllCI (w : List Char) : Nat → List Char → List Char
  | 0, s => s
  | _ + 1, [] => []
  | fuel + 1, c :: s =>
    match matchAtCI w (c :: s) with
    | some rest => removeAllCI w fuel rest
    | none => c :: removeAllCI w fuel s

/-- clean_prompt_for_safety (main.py lines 52-58): strip the four forbidden
words case-insensitively, in order. -/
def clean_prompt_for_safety (prompt : String) : String :=
  (["politics", "bloody", "violence", "sexy"]).foldl
    (fun p w => String.mk (removeAllCI w.toList p.toList.length p.toList)) prompt

/-- get_character_desc (main.py lines 60-67). -/
def get_character_desc (name : String) : String :=
  if name == "熊大熊二" then "two friendly brown bears, 3D Disney Pixar style, high quality textures"
  else if name == "喜羊羊" then "a cute white sheep with a golden bell, 3D animated style, fluffy wool"
  else if name == "小博士" then "a wise little owl wearing large glasses and a graduation cap, 3D stylized"
  else "a cute 3D educational cartoon character"

/-- The scene prompt f-string (main.py lines 179-183). -/
def build_raw_prompt (style char_desc vp : String) : String :=
  style ++ " animation, " ++ char_desc ++ ", " ++ vp ++
    ", Chinese environment, video with Chinese audio only, no English speech, educational video, high quality."

/-- The value interpolated for scene[...] lookups below; well-formedness of the
scene (established by pyGetItem succeeding) makes the getD default unreachable. -/
def sceneVp (scene : JValue) : JValue := (jget scene ("visual_prompt")).getD JValue.null

/-- The safe prompt of one scene: raw f-string assembly followed by the
safety filter (main.py lines 179-185). -/
def scene_prompt (req : VideoRequest) (scene : JValue) : String :=
  clean_prompt_for_safety
    (build_raw_prompt req.style (get_character_desc req.character) (pyStr (sceneVp scene)))

/-- Python bracket indexing scene[key]: raises KeyError (whose str() is the
repr of the key) on a dict without the key, and a TypeError on a non-dict. -/
def pyGetItem : JValue → String → Except String JValue
  | JValue.obj fs, k =>
    (match jget (JValue.obj fs) k with
     | some x => Except.ok x
     | none => Except.error (strRepr k))
  | _, k => Except.error ("value is not subscriptable with key " ++ strRepr k)

/-- One element of final_course (main.py lines 221-225). -/
structure SceneResult where
  title : JValue
  narration : JValue
  video_url : JValue

/-- One stored task_results record. The source keeps a dict; its possible
keys are exactly these. The source writes progress as the f-string
"idx/len(scenes)"; we model the pair it renders, (index, total). -/
structure TaskRecord where
  status : String
  message : String
  progress : Option (Nat × Nat)
  data : Option (List SceneResult)

/-- The external world as seen by one run of background_generate_course:
scriptOutcome is the combined outcome of the DeepSeek call and the JSON
decode of its message content (main.py lines 168-169), an exception message
or the decoded script_data value; submitResp answers the video submit call
for a given scene index, prompt and attempt number with an exception or the
response text; pollResult is the outcome of poll_video_url for a given scene
index and extracted job id (poll_video_url returns a url value or None). -/
structure OrchEnv where
  scriptOutcome : Except String JValue
  submitResp : Nat → String → Nat → Except String String
  pollResult : Nat → String → Option JValue

/-- The submit retry loop of one scene (main.py lines 197-214): up to three
attempts; a raising request, an empty or HTML body, and a body without an
extractable id all fall through to the next attempt; the first extracted id
breaks the loop. `i` is the attempt number, the second argument the fuel. -/
def submit_go (loads : String → Option JValue) (f : Nat → Except String String) :
    Nat → Nat → Option String
  | _, 0 => none
  | i, fuel + 1 =>
    match f i with
    | Except.error _ => submit_go loads f (i + 1) fuel
    | Except.ok text =>
      let raw_text := pyStrip text
      if raw_text.toList.isEmpty || listHasSub ("<html>".toList) ((pyLower raw_text).toList) then
        submit_go loads f (i + 1) fuel
      else
        match extract_id_from_sse loads raw_text with
        | some jid => some jid
        | none => submit_go loads f (i + 1) fuel

/-- The whole submit retry loop: `for attempt in range(3)`. -/
def submit_scene (loads : String → Option JValue) (f : Nat → Except String String) :
    Option String :=
  submit_go loads f 0 3

/-- The video url obtained for one scene (main.py lines 193-218): the
submit retry loop produces at most one job id, and only then is the poll
loop run, once; without an id video_url stays None. -/
def sceneVideo (loads : String → Option JValue) (env : OrchEnv) (req : VideoRequest)
    (idx : Nat) (scene : JValue) : Option JValue :=
  match submit_scene loads (env.submitResp idx (scene_prompt req scene)) with
  | some j => env.pollResult idx j
  | none => none

/-- Python `x or default` on the poll outcome (main.py line 224): the url
when it is present and truthy, the fallback placeholder otherwise. -/
def pyOrJ (v : Option JValue) (dflt : JValue) : JValue :=
  match v with
  | some x => if truthy x then x else dflt
  | none => dflt

/-- The fallback placeholder video url (main.py line 224). -/
def fallback_url : String := "https://media.giphy.com/media/3o7TKMGpxx36E20Nl6/giphy.gif"

/-- The progress record merged into the store before scene idx is generated
(main.py lines 188-191): update() keeps the processing status and adds
progress idx/total and the message naming the scene title. -/
def mkRec (total idx : Nat) (scene : JValue) : TaskRecord :=
  { status := "processing",
    message := "正在製作純中文場景 " ++ toString (idx + 1) ++ ": " ++
      pyStr ((jget scene ("title")).getD JValue.null) ++ "...",
    progress := some (idx, total),
    data := none }

/-- The SceneResult appended for scene idx (main.py lines 221-225): .get
fallbacks for title and narration, placeholder for a failed video. -/
def mkRes (loads : String → Option JValue) (env : OrchEnv) (req : VideoRequest)
    (idx : Nat) (scene : JValue) : SceneResult :=
  { title := (jget scene ("title")).getD (JValue.str ("場景 " ++ toString (idx + 1))),
    narration := (jget scene ("narration")).getD (JValue.str ("正在準備內容...")),
    video_url := pyOrJ (sceneVideo loads env req idx scene) (JValue.str fallback_url) }

/-- One iteration of the scene loop (main.py lines 177-225). The two bracket
accesses scene["visual_prompt"] (line 180, inside the prompt f-string) and
scene["title"] (line 190, inside the progress-message f-string) can raise;
everything later uses .get and cannot. On success the iteration writes the
progress record and appends the scene result. -/
def scene_step (loads : String → Option JValue) (env : OrchEnv) (req : VideoRequest)
    (total idx : Nat) (scene : JValue) : Except String (TaskRecord × SceneResult) :=
  match pyGetItem scene ("visual_prompt") with
  | Except.error e => Except.error e
  | Except.ok _ =>
    match pyGetItem scene ("title") with
    | Except.error e => Except.error e
    | Except.ok _ =>
      Except.ok (mkRec total idx scene, mkRes loads env req idx scene)

/-- The scene loop (main.py lines 177-225): the list of progress records
written, and either the final course list or the first exception. On an
exception the records of the earlier scenes stay written. -/
def run_scenes (loads : String → Option JValue) (env : OrchEnv) (req : VideoRequest)
    (total : Nat) : Nat → List JValue → List SceneResult →
    List TaskRecord × Except String (List SceneResult)
  | _, [], acc => ([], Except.ok acc)
  | idx, scene :: rest, acc =>
    match scene_step loads env req total idx scene with
    | Except.error e => ([], Except.error e)
    | Except.ok (rec, res) =>
      let out := run_scenes loads env req total (idx + 1) rest (acc ++ [res])
      (rec :: out.1, out.2)

/-- The record written at the start of the background task (main.py line 147). -/
def initRec : TaskRecord :=
  { status := "processing", message := "正在規劃純中文教學劇本...", progress := none, data := none }

/-- The record written by the catch-all except clause (main.py line 236):
the whole record is replaced, so no data key survives. -/
def errRecord (e : String) : TaskRecord :=
  { status := "error", message := "製作過程錯誤: " ++ e, progress := none, data := none }

/-- The record written on completion (main.py lines 228-232): the whole
record is replaced, so the progress key is gone. -/
def completedRec (course : List SceneResult) : TaskRecord :=
  { status := "completed", message := "純中文動畫課程製作完成！", progress := none, data := some course }

/-- Python iteration over the value of script_data.get("scenes", []): a list
iterates its elements, a string its one-character substrings, a dict its
keys; None, numbers and booleans are not iterable and raise. -/
def toScenesList : JValue → Except String (List JValue)
  | JValue.arr xs => Except.ok xs
  | JValue.str s => Except.ok (s.toList.map (fun c => JValue.str (String.mk [c])))
  | JValue.obj fs => Except.ok (fs.map (fun p => JValue.str p.1))
  | JValue.null => Except.error ("NoneType object is not iterable")
  | JValue.num _ => Except.error ("int object is not iterable")
  | JValue.bool _ => Except.error ("bool object is not iterable")

/-- background_generate_course (main.py lines 141-236), as the sequence of
records written to task_results[internal_task_id], in order. The try block
covers everything after the initial processing record; any exception replaces
the record with the error record. script_data.get("scenes", []) requires
script_data to be a dict (a .get on anything else raises). -/
def background_generate_course (loads : String → Option JValue) (env : OrchEnv)
    (req : VideoRequest) : List TaskRecord :=
  match env.scriptOutcome with
  | Except.error e => (initRec :: []) ++ [errRecord e]
  | Except.ok script_data =>
    match script_data with
    | JValue.obj fs =>
      (match toScenesList ((jget (JValue.obj fs) ("scenes")).getD (JValue.arr [])) with
       | Except.error e => (initRec :: []) ++ [errRecord e]
       | Except.ok scenes =>
         let out := run_scenes loads env req scenes.length 0 scenes []
         (match out.2 with
          | Except.error e => (initRec :: out.1) ++ [errRecord e]
          | Except.ok final_course => (initRec :: out.1) ++ [completedRec final_course]))
    | _ => (initRec :: []) ++ [errRecord ("object has no attribute get")]

/-- The internal job id of generate_video (main.py line 248):
f"task_{int(time.time())}". The clock is modelled in milliseconds, so
int(time.time()) is the millisecond reading divided by 1000. -/
def generate_video_task_id (now_ms : Nat) : String :=
  "task_" ++ toString (now_ms / 1000)

/-- The record generate_video stores before scheduling the background task
(main.py line 249). -/
def queuedRec : TaskRecord :=
  { status := "processing", message := "任務已啟動", progress := none, data := none }

/- ===== Derived shapes and structural lemmas ===== -/

/-- A scene on which the scene loop cannot raise: a dict carrying both
bracket-accessed keys, visual_prompt (line 180) and title (line 190). -/
def sceneOk (s : JValue) : Bool :=
  isObj s && (jget s ("visual_prompt")).isSome && (jget s ("title")).isSome

/-- The progress records the scene loop writes for the given scenes,
starting at index idx. -/
def expectedTrace (total : Nat) : Nat → List JValue → List TaskRecord
  | _, [] => []
  | idx, s :: rest => mkRec total idx s :: expectedTrace total (idx + 1) rest

/-- The scene results the scene loop accumulates for the given scenes,
starting at index idx. -/
def expectedResults (loads : String → Option JValue) (env : OrchEnv) (req : VideoRequest) :
    Nat → List JValue → List SceneResult
  | _, [] => []
  | idx, s :: rest => mkRes loads env req idx s :: expectedResults loads env req (idx + 1) rest

/-- The completed-scene counts observable in a record trace, in order: the
first component of every progress field present. -/
def observedCompleted (trace : List TaskRecord) : List Nat :=
  trace.filterMap (fun r => r.progress.map (fun p => p.1))

theorem scene_step_ok (loads : String → Option JValue) (env : OrchEnv) (req : VideoRequest)
    (total idx : Nat) (scene : JValue) (h : sceneOk scene = true) :
    scene_step loads env req total idx scene =
      Except.ok (mkRec total idx scene, mkRes loads env req idx scene) := by
  cases scene with
  | obj fs =>
    simp only [sceneOk, isObj, Bool.and_eq_true, Option.isSome_iff_exists] at h
    obtain ⟨⟨-, v, hv⟩, t, ht⟩ := h
    simp [scene_step, pyGetItem, hv, ht]
  | null => simp [sceneOk, isObj] at h
  | bool b => simp [sceneOk, isObj] at h
  | num n => simp [sceneOk, isObj] at h
  | str s => simp [sceneOk, isObj] at h
  | arr xs => simp [sceneOk, isObj] at h

theorem run_scenes_eq (loads : String → Option JValue) (env : OrchEnv) (req : VideoRequest)
    (total : Nat) :
    ∀ (scenes : List JValue) (idx : Nat) (acc : List SceneResult),
      (∀ s ∈ scenes, sceneOk s = true) →
      run_scenes loads env req total idx scenes acc =
        (expectedTrace total idx scenes,
         Except.ok (acc ++ expectedResults loads env req idx scenes))
  | [], idx, acc, _ => by simp [run_scenes, expectedTrace, expectedResults]
  | s :: rest, idx, acc, h => by
    have hs : sceneOk s = true := h s (List.mem_cons_self s rest)
    have ih := run_scenes_eq loads env req total rest (idx + 1) (acc ++ [mkRes loads env req idx s])
      (fun x hx => h x (List.mem_cons_of_mem s hx))
    simp [run_scenes, scene_step_ok loads env req total idx s hs, ih,
      expectedTrace, expectedResults]

/-- Shape of the whole background run when the script call succeeds with a
dict whose scenes value is a list of well-formed scenes. -/
theorem background_ok (loads : String → Option JValue) (env : OrchEnv) (req : VideoRequest)
    (fs : List (String × JValue)) (scenes : List JValue)
    (h1 : env.scriptOutcome = Except.ok (JValue.obj fs))
    (h3 : jget (JValue.obj fs) ("scenes") = some (JValue.arr scenes))
    (h4 : ∀ s ∈ scenes, sceneOk s = true) :
    background_generate_course loads env req =
      (initRec :: expectedTrace scenes.length 0 scenes) ++
        [completedRec (expectedResults loads env req 0 scenes)] := by
  simp [background_generate_course, h1, h3, toScenesList,
    run_scenes_eq loads env req scenes.length scenes 0 [] h4]

theorem expectedResults_length (loads : String → Option JValue) (env : OrchEnv)
    (req : VideoRequest) :
    ∀ (scenes : List JValue) (idx : Nat),
      (expectedResults loads env req idx scenes).length = scenes.length
  | [], _ => rfl
  | _ :: rest, idx => by
    simp [expectedResults, expectedResults_length loads env req rest (idx + 1)]

/-- Element k of the accumulated results is the result of scene k. -/
theorem expectedResults_getD (loads : String → Option JValue) (env : OrchEnv)
    (req : VideoRequest) (d : SceneResult) :
    ∀ (scenes : List JValue) (idx k : Nat), k < scenes.length →
      (expectedResults loads env req idx scenes).getD k d =
        mkRes loads env req (idx + k) (scenes.getD k JValue.null)
  | [], _, k, hk => by simp at hk
  | s :: rest, idx, 0, _ => by simp [expectedResults]
  | s :: rest, idx, k + 1, hk => by
    have ih := expectedResults_getD loads env req d rest (idx + 1) k
      (by simpa using Nat.lt_of_succ_lt_succ hk)
    have harith : idx + (k + 1) = idx + 1 + k := by omega
    simpa [expectedResults, harith] using ih

/-- The progress counters written by the scene loop are idx, idx+1, ... -/
theorem observedCompleted_expectedTrace (total : Nat) :
    ∀ (scenes : List JValue) (idx : Nat),
      observedCompleted (expectedTrace total idx scenes) = List.range' idx scenes.length
  | [], _ => rfl
  | s :: rest, idx => by
    have ih := observedCompleted_expectedTrace total rest (idx + 1)
    simp [expectedTrace, observedCompleted, mkRec, List.range'_succ] at ih ⊢
    exact ih

/-- A word is a leading segment of itself followed by anything. -/
theorem listLeads_append (l r : List Char) : listLeads l (l ++ r) = true := by
  induction l with
  | nil => rfl
  | cons c cs ih => simp [listLeads, ih]

/-- The catch-all error record's message carries the fixed prefix followed
by the exception text. -/
theorem errRecord_msg_leads (e : String) :
    listLeads ("製作過程錯誤: ".toList) (errRecord e).message.toList = true := by
  have : (errRecord e).message.toList = "製作過程錯誤: ".toList ++ e.toList :=
    String.data_append "製作過程錯誤: " e
  rw [this]
  exact listLeads_append "製作過程錯誤: ".toList e.toList

/- ===== Concrete environments for counterexamples and witnesses ===== -/

/-- Decoded form of the JSON text with id "A". -/
def objIdA : JValue := JValue.obj [("id", JValue.str "A")]

/-- Decoded form of the JSON text with id "B". -/
def objIdB : JValue := JValue.obj [("id", JValue.str "B")]

/-- A decoder agreeing with json.loads on the two id frames used below. -/
def loadsAB : String → Option JValue :=
  tblLoads [("\x7b\"id\": \"A\"\x7d", objIdA), ("\x7b\"id\": \"B\"\x7d", objIdB)]

/-- Two well-formed frames, id "A" first and id "B" last. -/
def bodyAB : String := "data: \x7b\"id\": \"A\"\x7d\ndata: \x7b\"id\": \"B\"\x7d"

/- ===== C1 ===== -/

/-- C1 counterexample: on a body of two well-formed `data:` frames whose
ids are "A" then "B", extract_id_from_sse returns the FIRST frame's id "A";
the claimed reverse scan would return the last frame's id "B". -/
theorem C1_cex :
    extract_id_from_sse loadsAB bodyAB = some ("A") ∧ ("A" : String) ≠ "B" :=
  ⟨by decide, by decide⟩

/-- C1 (amended): frame parsing scans lines from the FRONT: for any body
framed as data lines, the parser returns the id of the first line whose
frame decodes and yields an id, regardless of all later well-formed or
malformed lines. -/
theorem C1_forward_first (loads : String → Option JValue) (raw : String)
    (pre post : List String) (l j : String)
    (hsplit : pySplitNL raw = pre ++ l :: post)
    (hpre : ∀ p ∈ pre, lineId loads p = none)
    (hl : lineId loads l = some j) :
    extract_id_from_sse loads raw = some j := by
  have key : ∀ pre2, (∀ p ∈ pre2, lineId loads p = none) →
      extract_go loads (pre2 ++ l :: post) = some j := by
    intro pre2
    induction pre2 with
    | nil => intro _; simp [extract_go, hl]
    | cons a as ih =>
      intro h2
      simp [extract_go, h2 a (List.mem_cons_self a as),
        ih (fun p hp => h2 p (List.mem_cons_of_mem a hp))]
  rw [extract_id_from_sse, hsplit]
  exact key pre hpre

/-- C1 witness: a malformed first line, then the "A" frame, then the "B"
frame: the parser returns "A", ignoring everything after the first hit. -/
theorem C1_forward_first_witness :
    extract_id_from_sse loadsAB ("junk\ndata: \x7b\"id\": \"A\"\x7d\ndata: \x7b\"id\": \"B\"\x7d") =
      some ("A") :=
  C1_forward_first loadsAB ("junk\ndata: \x7b\"id\": \"A\"\x7d\ndata: \x7b\"id\": \"B\"\x7d")
    ["junk"] ["data: \x7b\"id\": \"B\"\x7d"] ("data: \x7b\"id\": \"A\"\x7d") ("A")
    (by decide) (by decide) (by decide)

/- ===== C9 ===== -/

/-- A well-formed JSON document spanning three lines; real json.loads
decodes the whole body to an object with id "A", while no individual line
of it is valid JSON. -/
def multiLineBody : String := "\x7b\n\"id\": \"A\"\n\x7d"

/-- A decoder agreeing with json.loads on the multi-line document: it
decodes the whole body and fails on each individual line. -/
def loadsML : String → Option JValue := tblLoads [(multiLineBody, objIdA)]

/-- C9 counterexample: the body is a single well-formed JSON document (one
the decoder maps to an id-carrying object), yet the parser returns nothing,
because it never attempts a whole-body decode: it splits on newlines first
and no single line decodes. -/
theorem C9_cex :
    loadsML multiLineBody = some objIdA ∧
    extract_id_from_sse loadsML multiLineBody = none :=
  ⟨rfl, by decide⟩

/-- C9 (amended): the parser is purely line-based and never attempts a
whole-body decode. A body that is a single well-formed JSON document on ONE
line is decoded through the line scan and its id extracted; a document
spanning several lines is not recognized. -/
theorem C9_single_line (loads : String → Option JValue) (raw : String) (v : JValue) (j : String)
    (hnl : pySplitNL raw = [raw])
    (hne : (pyStrip raw).toList.isEmpty = false)
    (hnd : listLeads ("data:".toList) (pyStrip raw).toList = false)
    (hload : loads (pyStrip raw) = some v)
    (hid : idFromPayload v = some j) :
    extract_id_from_sse loads raw = some j := by
  rw [extract_id_from_sse, hnl]
  have hne2 : ¬((pyStrip raw).data = []) := by
    intro h
    rw [show (pyStrip raw).toList = (pyStrip raw).data from rfl, h] at hne
    simp at hne
  have hnd2 : ¬(listLeads ['d', 'a', 't', 'a', ':'] (pyStrip raw).data = true) :=
    fun h => Bool.false_ne_true (hnd.symm.trans h)
  simp [extract_go, lineId, frameContent, hne2, hnd2, hload, hid]

/-- C9 witness: a one-line plain JSON body round-trips through the parser. -/
theorem C9_single_line_witness :
    extract_id_from_sse loadsAB ("\x7b\"id\": \"A\"\x7d") = some ("A") :=
  C9_single_line loadsAB ("\x7b\"id\": \"A\"\x7d") objIdA ("A")
    (by decide) (by decide) (by decide) rfl rfl

/- ===== C5 ===== -/

/-- A poll payload with a non-empty results list carrying a url AND a
status that still says processing. -/
def objResUrl : JValue :=
  JValue.obj [("results", JValue.arr [JValue.obj [("url", JValue.str "u1")]]),
              ("status", JValue.str "processing")]

/-- JSON text of objResUrl. -/
def bodyResUrl : String :=
  "\x7b\"results\": [\x7b\"url\": \"u1\"\x7d], \"status\": \"processing\"\x7d"

/-- A poll payload whose results list is non-empty but whose first element
has no url, with status processing. -/
def objResNoUrl : JValue :=
  JValue.obj [("results", JValue.arr [JValue.obj []]), ("status", JValue.str "processing")]

/-- JSON text of objResNoUrl. -/
def bodyResNoUrl : String := "\x7b\"results\": [\x7b\x7d], \"status\": \"processing\"\x7d"

/-- A decoder agreeing with json.loads on the two poll bodies above. -/
def loadsPoll : String → Option JValue :=
  tblLoads [(bodyResUrl, objResUrl), (bodyResNoUrl, objResNoUrl)]

/-- C5 counterexample, two independent failures of the claim as stated.
First, a 201 response (a 2xx status) whose payload has a non-empty results
list with a url is NOT treated as done: the source tests status_code == 200
exactly, so 201 falls through as in-progress. Second, a 200 response whose
non-empty results list has no url in its first element is also not done:
the source additionally requires a truthy results[0]["url"], and here the
simultaneous processing status wins. -/
theorem C5_cex :
    loadsPoll bodyResUrl = some objResUrl ∧
    jget (normalizePayload objResUrl) ("results") =
      some (JValue.arr [JValue.obj [("url", JValue.str "u1")]]) ∧
    pollAttempt loadsPoll (some (201, bodyResUrl)) = AttemptOutcome.inProgress ∧
    loadsPoll bodyResNoUrl = some objResNoUrl ∧
    jget (normalizePayload objResNoUrl) ("results") = some (JValue.arr [JValue.obj []]) ∧
    pollAttempt loadsPoll (some (200, bodyResNoUrl)) = AttemptOutcome.inProgress :=
  ⟨rfl, rfl, rfl, rfl, rfl, rfl⟩

/-- C5 (amended): for a poll response with HTTP status exactly 200 whose
normalized payload has a non-empty results list whose first element carries
a truthy url, the attempt yields done with that url, even when a status
field is simultaneously present and says processing — or anything else:
the status field is never consulted (results take priority). -/
theorem C5_results_priority (loads : String → Option JValue) (raw l : String)
    (payload : JValue) (x : List (String × JValue)) (rest : List JValue) (u : JValue)
    (hsplit : pySplitNL (pyStrip raw) = [l])
    (hload : loads (frameContent l) = some payload)
    (hobj : isObj payload = true)
    (hres : jget (normalizePayload payload) ("results") =
      some (JValue.arr (JValue.obj x :: rest)))
    (hurl : jget (JValue.obj x) ("url") = some u)
    (htr : truthy u = true) :
    pollAttempt loads (some (200, raw)) = AttemptOutcome.done u := by
  cases payload with
  | obj fs =>
    simp [pollAttempt, hsplit, scanLines, pollLine, hload, resultsStep, hres, hurl, htr]
  | null => simp [isObj] at hobj
  | bool b => simp [isObj] at hobj
  | num n => simp [isObj] at hobj
  | str s => simp [isObj] at hobj
  | arr xs => simp [isObj] at hobj

/-- C5 witness: the 200 response with both a results url and a processing
status yields done with that url. -/
theorem C5_results_priority_witness :
    pollAttempt loadsPoll (some (200, bodyResUrl)) = AttemptOutcome.done (JValue.str "u1") :=
  C5_results_priority loadsPoll bodyResUrl bodyResUrl objResUrl
    [("url", JValue.str "u1")] [] (JValue.str "u1")
    (by decide) rfl rfl rfl rfl (by decide)

/- ===== C8 ===== -/

/-- C8: a poll response (HTTP 200, a single frame) whose normalized payload
has an empty or absent results list and whose status case-folds to failed
or error makes the poll loop return None at that very attempt: after k
earlier in-progress attempts it stops having consumed k+1 of its 120
attempts, leaving the rest of the budget unused. -/
theorem C8_fail_short_circuit (loads : String → Option JValue)
    (resp : Nat → Option (Nat × String)) (k : Nat) (raw l : String) (payload : JValue)
    (hk : k < 120)
    (hprev : ∀ j, j < k → pollAttempt loads (resp j) = AttemptOutcome.inProgress)
    (hresp : resp k = some (200, raw))
    (hsplit : pySplitNL (pyStrip raw) = [l])
    (hload : loads (frameContent l) = some payload)
    (hobj : isObj payload = true)
    (hres : jget (normalizePayload payload) ("results") = none ∨
            jget (normalizePayload payload) ("results") = some (JValue.arr []))
    (hst : statusLower (normalizePayload payload) = "failed" ∨
           statusLower (normalizePayload payload) = "error") :
    poll_go loads resp 0 120 = (none, k + 1) ∧ poll_video_url loads resp = none := by
  have hstatus : statusStep (normalizePayload payload) = LineStep.fail := by
    rcases hst with h | h <;> simp [statusStep, h, progressStatuses]
  have hfail : pollAttempt loads (resp k) = AttemptOutcome.failed := by
    cases payload with
    | obj fs =>
      rcases hres with h | h <;>
        simp [pollAttempt, hresp, hsplit, scanLines, pollLine, hload, resultsStep, h, hstatus]
    | null => simp [isObj] at hobj
    | bool b => simp [isObj] at hobj
    | num n => simp [isObj] at hobj
    | str s => simp [isObj] at hobj
    | arr xs => simp [isObj] at hobj
  have main : ∀ fuel i, i ≤ k → k < i + fuel →
      (∀ j, i ≤ j → j < k → pollAttempt loads (resp j) = AttemptOutcome.inProgress) →
      poll_go loads resp i fuel = (none, k + 1) := by
    intro fuel
    induction fuel with
    | zero => intro i h1 h2 _; omega
    | succ n ih =>
      intro i h1 h2 h3
      rcases Nat.eq_or_lt_of_le h1 with heq | hlt
      · subst heq
        simp [poll_go, hfail]
      · have := h3 i (Nat.le_refl i) hlt
        simp [poll_go, this]
        exact ih (i + 1) hlt (by omega) (fun j hj1 hj2 => h3 j (by omega) hj2)
  have h0 := main 120 0 (Nat.zero_le k) (by omega) (fun j _ hj => hprev j hj)
  exact ⟨h0, by rw [poll_video_url, h0]⟩

/-- A failed poll payload whose status is upper-case, exercising the
case-fold. -/
def objFailed : JValue := JValue.obj [("status", JValue.str "FAILED")]

/-- JSON text of objFailed, framed as an event-stream line. -/
def bodyFailed : String := "data: \x7b\"status\": \"FAILED\"\x7d"

/-- A decoder agreeing with json.loads on the failed frame's content. -/
def loadsFailed : String → Option JValue :=
  tblLoads [("\x7b\"status\": \"FAILED\"\x7d", objFailed)]

/-- C8 witness: a first-attempt FAILED response stops the poll loop at once
with one of the 120 attempts consumed. -/
theorem C8_fail_short_circuit_witness :
    (1 : Nat) < 120 ∧
    (poll_go loadsFailed (fun _ => some (200, bodyFailed)) 0 120 = (none, 1) ∧
     poll_video_url loadsFailed (fun _ => some (200, bodyFailed)) = none) :=
  ⟨by decide,
   C8_fail_short_circuit loadsFailed (fun _ => some (200, bodyFailed)) 0 bodyFailed
     ("data: \x7b\"status\": \"FAILED\"\x7d") objFailed
     (by decide) (fun j hj => absurd hj (Nat.not_lt_zero j)) rfl
     (by decide) rfl rfl (Or.inl rfl) (Or.inl rfl)⟩

/- ===== Shared orchestrator environments ===== -/

/-- A fully well-formed scene. -/
def sceneA : JValue :=
  JValue.obj [("title", JValue.str "t"), ("visual_prompt", JValue.str "v"),
              ("narration", JValue.str "n")]

/-- A script payload carrying the single scene sceneA. -/
def sdA : JValue := JValue.obj [("scenes", JValue.arr [sceneA])]

/-- A concrete request. -/
def req0 : VideoRequest := { topic := "加法", character := "可愛助手", style := "3D" }

/-- A decoder agreeing with json.loads on the two handle frames h1 and h2. -/
def loadsH : String → Option JValue :=
  tblLoads [("\x7b\"id\": \"h1\"\x7d", JValue.obj [("id", JValue.str "h1")]),
            ("\x7b\"id\": \"h2\"\x7d", JValue.obj [("id", JValue.str "h2")])]

/-- An environment where the first submit attempt yields handle h1, later
submit attempts would yield handle h2, polling h1 fails and polling h2
would succeed. -/
def env2 : OrchEnv :=
  { scriptOutcome := Except.ok sdA,
    submitResp := fun _ _ attempt =>
      if attempt == 0 then Except.ok ("\x7b\"id\": \"h1\"\x7d")
      else Except.ok ("\x7b\"id\": \"h2\"\x7d"),
    pollResult := fun _ j => if j == "h1" then none else some (JValue.str "http://u") }

/- ===== C2 ===== -/

/-- C2 counterexample: the first submit attempt obtains handle h1 whose
poll returns None, and every later submit attempt would obtain handle h2
whose poll would return a url — yet the job completes with the placeholder
for the scene: the code never re-submits after a null poll, contradicting
the claimed retry-on-poll-failure (which would have produced the url, and
None only after exhausting the retry count). -/
theorem C2_cex :
    env2.pollResult 0 "h1" = none ∧
    env2.pollResult 0 "h2" = some (JValue.str "http://u") ∧
    background_generate_course loadsH env2 req0 =
      [{ status := "processing", message := "正在規劃純中文教學劇本...",
         progress := none, data := none },
       { status := "processing", message := "正在製作純中文場景 1: t...",
         progress := some (0, 1), data := none },
       { status := "completed", message := "純中文動畫課程製作完成！", progress := none,
         data := some [{ title := JValue.str "t", narration := JValue.str "n",
                         video_url := JValue.str fallback_url }] }] ∧
    fallback_url ≠ "http://u" :=
  ⟨rfl, rfl, rfl, by decide⟩

/-- C2 (amended): the three-attempt retry loop covers only handle
acquisition. Whenever the FIRST submit attempt yields a usable handle, the
loop breaks; if the poll for that handle then returns None the scene is
finalized with the placeholder url immediately — the responses the
environment would give to further submit attempts are arbitrary here,
so no re-submission can occur. -/
theorem C2_no_resubmission (loads : String → Option JValue) (env : OrchEnv)
    (req : VideoRequest) (total idx : Nat) (scene : JValue) (b0 j : String)
    (hok : sceneOk scene = true)
    (h0 : env.submitResp idx (scene_prompt req scene) 0 = Except.ok b0)
    (hne : (pyStrip b0).toList.isEmpty = false)
    (hhtml : listHasSub ("<html>".toList) ((pyLower (pyStrip b0)).toList) = false)
    (hex : extract_id_from_sse loads (pyStrip b0) = some j)
    (hpoll : env.pollResult idx j = none) :
    scene_step loads env req total idx scene =
      Except.ok (mkRec total idx scene,
        { title := (jget scene ("title")).getD (JValue.str ("場景 " ++ toString (idx + 1))),
          narration := (jget scene ("narration")).getD (JValue.str ("正在準備內容...")),
          video_url := JValue.str fallback_url }) := by
  rw [scene_step_ok loads env req total idx scene hok]
  have hne2 : ¬((pyStrip b0).data = []) := by
    intro h
    rw [show (pyStrip b0).toList = (pyStrip b0).data from rfl, h] at hne
    simp at hne
  have hhtml2 : ¬(listHasSub ['<', 'h', 't', 'm', 'l', '>'] (pyLower (pyStrip b0)).data = true) :=
    fun h => Bool.false_ne_true (hhtml.symm.trans h)
  have hsub : submit_scene loads (env.submitResp idx (scene_prompt req scene)) = some j := by
    simp [submit_scene, submit_go, h0, hne2, hhtml2, hex]
  simp [mkRes, sceneVideo, hsub, hpoll, pyOrJ]

/-- C2 witness: the amended statement at the concrete environment of the
counterexample. -/
theorem C2_no_resubmission_witness :
    scene_step loadsH env2 req0 1 0 sceneA =
      Except.ok (mkRec 1 0 sceneA,
        { title := (jget sceneA ("title")).getD (JValue.str ("場景 " ++ toString (0 + 1))),
          narration := (jget sceneA ("narration")).getD (JValue.str ("正在準備內容...")),
          video_url := JValue.str fallback_url }) :=
  C2_no_resubmission loadsH env2 req0 1 0 sceneA ("\x7b\"id\": \"h1\"\x7d") ("h1")
    (by decide) rfl (by decide) (by decide) (by decide) rfl

/- ===== C3 ===== -/

/-- C3: the internal job id depends only on the integer part of
time.time(), so two submissions at clock readings 5.1s and 5.9s — distinct
times within the same wall-clock second — receive the same id task_5,
violating uniqueness. -/
theorem C3_id_collision :
    generate_video_task_id 5100 = generate_video_task_id 5900 ∧ (5100 : Nat) ≠ 5900 :=
  ⟨rfl, by decide⟩

/- ===== C4 ===== -/

/-- An environment whose every submit attempt raises, so the single scene
falls back to the placeholder and the job still completes. -/
def env4 : OrchEnv :=
  { scriptOutcome := Except.ok sdA,
    submitResp := fun _ _ _ => Except.error ("ConnectError"),
    pollResult := fun _ _ => none }

/-- C4 counterexample: a 1-scene job that reaches completed. The
completed-scene counts observable over the job's lifetime are [0] — the
counter is written BEFORE each scene is generated — and the final completed
record carries no progress field at all, so the observed sequence ends at
0, not at N = 1 as claimed. -/
theorem C4_cex :
    observedCompleted (background_generate_course loadsH env4 req0) = [0] ∧
    (background_generate_course loadsH env4 req0).getLast? =
      some { status := "completed", message := "純中文動畫課程製作完成！", progress := none,
             data := some [{ title := JValue.str "t", narration := JValue.str "n",
                             video_url := JValue.str fallback_url }] } ∧
    (0 : Nat) ≠ 1 :=
  ⟨rfl, rfl, by decide⟩

/-- C4 (amended): for a job whose script yields N well-formed scenes (which
therefore reaches completed), the observable progress counters form the
non-decreasing sequence 0, 1, ..., N-1 — the counter is set to i just
before scene i is generated — and the final completed record drops the
progress field entirely while its data has length N. -/
theorem C4_progress_monotone (loads : String → Option JValue) (env : OrchEnv)
    (req : VideoRequest) (fs : List (String × JValue)) (scenes : List JValue)
    (h1 : env.scriptOutcome = Except.ok (JValue.obj fs))
    (h3 : jget (JValue.obj fs) ("scenes") = some (JValue.arr scenes))
    (h4 : ∀ s ∈ scenes, sceneOk s = true) :
    observedCompleted (background_generate_course loads env req) = List.range scenes.length ∧
    ∃ final, (background_generate_course loads env req).getLast? = some final ∧
      final.status = "completed" ∧ final.progress = none ∧
      ∃ d, final.data = some d ∧ d.length = scenes.length := by
  rw [background_ok loads env req fs scenes h1 h3 h4]
  constructor
  · have hT := observedCompleted_expectedTrace scenes.length scenes 0
    rw [List.range_eq_range']
    simpa [observedCompleted, initRec, completedRec] using hT
  · refine ⟨completedRec (expectedResults loads env req 0 scenes),
      List.getLast?_concat _, rfl, rfl,
      expectedResults loads env req 0 scenes, rfl,
      expectedResults_length loads env req scenes 0⟩

/-- C4 witness: the amended statement at the concrete 1-scene environment. -/
theorem C4_progress_monotone_witness :
    observedCompleted (background_generate_course loadsH env4 req0) = List.range 1 ∧
    ∃ final, (background_generate_course loadsH env4 req0).getLast? = some final ∧
      final.status = "completed" ∧ final.progress = none ∧
      ∃ d, final.data = some d ∧ d.length = 1 :=
  C4_progress_monotone loadsH env4 req0 [("scenes", JValue.arr [sceneA])] [sceneA]
    rfl rfl (by decide)

/- ===== C6 ===== -/

/-- The default used for out-of-range list reads in claim statements. -/
def defaultSceneResult : SceneResult :=
  { title := JValue.null, narration := JValue.null, video_url := JValue.null }

/-- C6: per-scene degradation. For a job whose script yields well-formed
scenes, the job always reaches completed — never error — with one scene
result per scene, and every scene whose video pipeline produced no url
(submission retries exhausted, or poll failed) carries the fallback
placeholder url. -/
theorem C6_per_scene_degradation (loads : String → Option JValue) (env : OrchEnv)
    (req : VideoRequest) (fs : List (String × JValue)) (scenes : List JValue)
    (h1 : env.scriptOutcome = Except.ok (JValue.obj fs))
    (h3 : jget (JValue.obj fs) ("scenes") = some (JValue.arr scenes))
    (h4 : ∀ s ∈ scenes, sceneOk s = true) :
    ∃ final, (background_generate_course loads env req).getLast? = some final ∧
      final.status = "completed" ∧
      ∃ d, final.data = some d ∧ d.length = scenes.length ∧
        ∀ k, k < scenes.length →
          sceneVideo loads env req k (scenes.getD k JValue.null) = none →
          (d.getD k defaultSceneResult).video_url = JValue.str fallback_url := by
  rw [background_ok loads env req fs scenes h1 h3 h4]
  refine ⟨completedRec (expectedResults loads env req 0 scenes), List.getLast?_concat _, rfl,
    expectedResults loads env req 0 scenes, rfl,
    expectedResults_length loads env req scenes 0, ?_⟩
  intro k hk hnull
  rw [expectedResults_getD loads env req defaultSceneResult scenes 0 k hk,
    show 0 + k = k from Nat.zero_add k]
  simp only [mkRes]
  rw [hnull]
  rfl

/-- An environment with a 3-scene script where exactly scene 1 (the second
scene) exhausts its submit retries while the other scenes obtain a handle
and a url. -/
def env6 : OrchEnv :=
  { scriptOutcome := Except.ok (JValue.obj [("scenes", JValue.arr [sceneA, sceneA, sceneA])]),
    submitResp := fun idx _ _ =>
      if idx == 1 then Except.error ("ReadTimeout") else Except.ok ("\x7b\"id\": \"h1\"\x7d"),
    pollResult := fun _ _ => some (JValue.str "http://ok.mp4") }

/-- C6 witness: on the 3-scene environment where scene 1 fails, the theorem
yields a completed job with 3 scene results, the failed one carrying the
placeholder. -/
theorem C6_per_scene_degradation_witness :
    sceneVideo loadsH env6 req0 1 ([sceneA, sceneA, sceneA].getD 1 JValue.null) = none ∧
    ∃ final, (background_generate_course loadsH env6 req0).getLast? = some final ∧
      final.status = "completed" ∧
      ∃ d, final.data = some d ∧ d.length = [sceneA, sceneA, sceneA].length ∧
        ∀ k, k < [sceneA, sceneA, sceneA].length →
          sceneVideo loadsH env6 req0 k ([sceneA, sceneA, sceneA].getD k JValue.null) = none →
          (d.getD k defaultSceneResult).video_url = JValue.str fallback_url :=
  ⟨rfl,
   C6_per_scene_degradation loadsH env6 req0
     [("scenes", JValue.arr [sceneA, sceneA, sceneA])] [sceneA, sceneA, sceneA]
     rfl rfl (by decide)⟩

/- ===== C7 ===== -/

/-- C7: catch-all fatality and terminality. Whatever the external world
does — script failure, malformed script payload, missing scene fields,
video failures — the last record written for the job is terminal: either
completed with a data field present, or error with NO data field (partial
scene results discarded) and a message carrying the fixed error prefix
followed by the exception text. -/
theorem C7_terminality (loads : String → Option JValue) (env : OrchEnv) (req : VideoRequest) :
    ∃ final, (background_generate_course loads env req).getLast? = some final ∧
      ((final.status = "completed" ∧ final.data.isSome = true) ∨
       (final.status = "error" ∧ final.data = none ∧
        listLeads ("製作過程錯誤: ".toList) final.message.toList = true)) := by
  unfold background_generate_course
  split
  next e heq => exact ⟨errRecord e, by simp, Or.inr ⟨rfl, rfl, errRecord_msg_leads e⟩⟩
  next sd heq =>
    split
    next fs hsd =>
      split
      next e hts =>
        exact ⟨errRecord e, by simp, Or.inr ⟨rfl, rfl, errRecord_msg_leads e⟩⟩
      next scenes hts =>
        dsimp only
        split
        next e hout =>
          exact ⟨errRecord e, List.getLast?_concat _, Or.inr ⟨rfl, rfl, errRecord_msg_leads e⟩⟩
        next course hout =>
          exact ⟨completedRec course, List.getLast?_concat _, Or.inl ⟨rfl, rfl⟩⟩
    next x hx =>
      exact ⟨errRecord ("object has no attribute get"), by simp,
        Or.inr ⟨rfl, rfl, errRecord_msg_leads _⟩⟩

/- ===== C10 ===== -/

/-- Shape of the whole background run when the script succeeds but the
scene loop raises: the last record is the error record of that exception. -/
theorem background_scene_error (loads : String → Option JValue) (env : OrchEnv)
    (req : VideoRequest) (fs : List (String × JValue)) (scenes : List JValue) (e : String)
    (h1 : env.scriptOutcome = Except.ok (JValue.obj fs))
    (h3 : jget (JValue.obj fs) ("scenes") = some (JValue.arr scenes))
    (h5 : (run_scenes loads env req scenes.length 0 scenes []).2 = Except.error e) :
    (background_generate_course loads env req).getLast? = some (errRecord e) := by
  unfold background_generate_course
  rw [h1]
  show (match toScenesList ((jget (JValue.obj fs) ("scenes")).getD (JValue.arr [])) with
    | Except.error e2 => (initRec :: []) ++ [errRecord e2]
    | Except.ok scenes2 =>
      let out := run_scenes loads env req scenes2.length 0 scenes2 []
      (match out.2 with
       | Except.error e2 => (initRec :: out.1) ++ [errRecord e2]
       | Except.ok final_course => (initRec :: out.1) ++ [completedRec final_course])).getLast? =
    some (errRecord e)
  rw [h3]
  show (let out := run_scenes loads env req scenes.length 0 scenes []
    (match out.2 with
     | Except.error e2 => (initRec :: out.1) ++ [errRecord e2]
     | Except.ok final_course => (initRec :: out.1) ++ [completedRec final_course])).getLast? =
    some (errRecord e)
  dsimp only
  rw [h5]
  exact List.getLast?_concat _

/-- A scene missing only the narration field. -/
def sceneNoNarr : JValue :=
  JValue.obj [("title", JValue.str "t"), ("visual_prompt", JValue.str "v")]

/-- A scene missing the visual_prompt field. -/
def sceneNoVp : JValue :=
  JValue.obj [("title", JValue.str "t"), ("narration", JValue.str "n")]

/-- A scene missing only the title field. -/
def sceneNoTitle : JValue :=
  JValue.obj [("visual_prompt", JValue.str "v"), ("narration", JValue.str "n")]

/-- An environment whose script yields only sceneNoNarr; video submission
always fails, exercising the fallback path. -/
def envA10 : OrchEnv :=
  { scriptOutcome := Except.ok (JValue.obj [("scenes", JValue.arr [sceneNoNarr])]),
    submitResp := fun _ _ _ => Except.error ("ConnectError"),
    pollResult := fun _ _ => none }

/-- An environment whose script yields only sceneNoVp. -/
def envB10 : OrchEnv :=
  { scriptOutcome := Except.ok (JValue.obj [("scenes", JValue.arr [sceneNoVp])]),
    submitResp := fun _ _ _ => Except.error ("ConnectError"),
    pollResult := fun _ _ => none }

/-- An environment whose script yields only sceneNoTitle. -/
def envC10 : OrchEnv :=
  { scriptOutcome := Except.ok (JValue.obj [("scenes", JValue.arr [sceneNoTitle])]),
    submitResp := fun _ _ _ => Except.error ("ConnectError"),
    pollResult := fun _ _ => none }

/-- C10 counterexample: a scene that has visual_prompt and narration but
lacks title does NOT get a fallback title — the progress-message f-string
at main.py line 190 bracket-accesses scene["title"], the KeyError reaches
the catch-all, and the whole job ends in error (message str(KeyError) =
repr of the key), not completed. -/
theorem C10_cex :
    jget sceneNoTitle ("title") = none ∧
    (jget sceneNoTitle ("visual_prompt")).isSome = true ∧
    (background_generate_course loadsH envC10 req0).getLast? =
      some { status := "error", message := "製作過程錯誤: \x27title\x27",
             progress := none, data := none } :=
  ⟨rfl, rfl, rfl⟩

/-- C10 (amended): missing script fields are handled asymmetrically, but
the dividing line is narration versus the two bracket-accessed fields. For
a scene lacking only narration, the orchestrator substitutes the fallback
default string and the job completes; a scene lacking visual_prompt raises
during prompt assembly, and a scene lacking title raises while building the
progress message, and either failure drives the entire job to error. -/
theorem C10_field_asymmetry (loads : String → Option JValue)
    (envA envB envC : OrchEnv) (req : VideoRequest)
    (sA sB sC : JValue) (fsB fsC : List (String × JValue))
    (hA1 : envA.scriptOutcome = Except.ok (JValue.obj [("scenes", JValue.arr [sA])]))
    (hA2 : sceneOk sA = true)
    (hA3 : jget sA ("narration") = none)
    (hB1 : envB.scriptOutcome = Except.ok (JValue.obj [("scenes", JValue.arr [sB])]))
    (hB2 : sB = JValue.obj fsB)
    (hB3 : jget sB ("visual_prompt") = none)
    (hC1 : envC.scriptOutcome = Except.ok (JValue.obj [("scenes", JValue.arr [sC])]))
    (hC2 : sC = JValue.obj fsC)
    (hC3 : (jget sC ("visual_prompt")).isSome = true)
    (hC4 : jget sC ("title") = none) :
    (∃ final, (background_generate_course loads envA req).getLast? = some final ∧
       final.status = "completed" ∧
       ∃ d, final.data = some d ∧
         (d.getD 0 defaultSceneResult).narration = JValue.str ("正在準備內容...")) ∧
    (background_generate_course loads envB req).getLast? =
      some (errRecord (strRepr ("visual_prompt"))) ∧
    (background_generate_course loads envC req).getLast? =
      some (errRecord (strRepr ("title"))) := by
  refine ⟨?_, ?_, ?_⟩
  · have h4 : ∀ s ∈ [sA], sceneOk s = true := by
      intro s hs
      rw [List.mem_singleton] at hs
      subst hs
      exact hA2
    rw [background_ok loads envA req [("scenes", JValue.arr [sA])] [sA] hA1 rfl h4]
    refine ⟨completedRec (expectedResults loads envA req 0 [sA]), List.getLast?_concat _, rfl,
      expectedResults loads envA req 0 [sA], rfl, ?_⟩
    simp [expectedResults, mkRes, hA3]
  · subst hB2
    have hstep : scene_step loads envB req 1 0 (JValue.obj fsB) =
        Except.error (strRepr ("visual_prompt")) := by
      simp [scene_step, pyGetItem, hB3]
    exact background_scene_error loads envB req [("scenes", JValue.arr [JValue.obj fsB])]
      [JValue.obj fsB] (strRepr ("visual_prompt")) hB1 rfl
      (by simp [run_scenes, hstep])
  · subst hC2
    obtain ⟨vp, hvp⟩ := Option.isSome_iff_exists.mp hC3
    have hstep : scene_step loads envC req 1 0 (JValue.obj fsC) =
        Except.error (strRepr ("title")) := by
      simp [scene_step, pyGetItem, hvp, hC4]
    exact background_scene_error loads envC req [("scenes", JValue.arr [JValue.obj fsC])]
      [JValue.obj fsC] (strRepr ("title")) hC1 rfl
      (by simp [run_scenes, hstep])

/-- C10 witness: the three concrete single-scene environments — narration
missing completes with the fallback narration, visual_prompt missing and
title missing both end in error. -/
theorem C10_field_asymmetry_witness :
    (∃ final, (background_generate_course loadsH envA10 req0).getLast? = some final ∧
       final.status = "completed" ∧
       ∃ d, final.data = some d ∧
         (d.getD 0 defaultSceneResult).narration = JValue.str ("正在準備內容...")) ∧
    (background_generate_course loadsH envB10 req0).getLast? =
      some (errRecord (strRepr ("visual_prompt"))) ∧
    (background_generate_course loadsH envC10 req0).getLast? =
      some (errRecord (strRepr ("title"))) :=
  C10_field_asymmetry loadsH envA10 envB10 envC10 req0 sceneNoNarr sceneNoVp sceneNoTitle
    [("title", JValue.str "t"), ("narration", JValue.str "n")]
    [("visual_prompt", JValue.str "v"), ("narration", JValue.str "n")]
    rfl (by decide) rfl rfl rfl rfl rfl rfl rfl rfl
